import Mathlib

/-!
Shallow embedding of the SFU media-forwarding core, translated from the Go
sources clienttrack.go, room_stats.go and the SFU registry file.  Go uint32
arithmetic is modelled on Nat with explicit reduction mod 2^32, and Go
runtime panics (division by zero) are modelled with Option.
-/

namespace SFU

/-- Width of the Go uint32 type. -/
def w32 : Nat := 4294967296

/-- Go uint32 addition, wrapping mod 2^32. -/
def add32 (a b : Nat) : Nat := (a + b) % w32

/-- Go uint32 subtraction, wrapping mod 2^32. -/
def sub32 (a b : Nat) : Nat := (a % w32 + (w32 - b % w32)) % w32

/-- Go uint32 multiplication, wrapping mod 2^32. -/
def mul32 (a b : Nat) : Nat := (a * b) % w32

/-- QualityLevel of a simulcast layer.  The Go type is a uint32 with
QualityNone = 0, QualityLow = 1, QualityMid = 2, QualityHigh = 3 (the
declaration is outside the given files; the zero value of the type and the
comparison with 0 in SimulcastClientTrack.push fix QualityNone = 0, and the
glossary lists exactly the four levels None, Low, Mid, High). -/
inductive QualityLevel where
  | qnone
  | qlow
  | qmid
  | qhigh
deriving DecidableEq

/-- Fields of the simulcast remote-track aggregate used by the packet
rewrite in SimulcastClientTrack.push: the subscriber-visible base timestamp
and the per-layer remote base timestamps (all Go uint32). -/
structure SimulcastTrack where
  baseTS : Nat
  remoteTrackHighBaseTS : Nat
  remoteTrackMidBaseTS : Nat
  remoteTrackLowBaseTS : Nat
deriving DecidableEq

/-- RTP packet fields read and rewritten by push (Go uint32 timestamp and
uint16 sequence number). -/
structure RTPPacket where
  timestamp : Nat
  sequenceNumber : Nat
deriving DecidableEq

/-- State of a SimulcastClientTrack that push reads and writes: the atomic
uint32 counters sequenceNumber, lastQuality, lastTimestamp, the peer
connection state of the subscribing client (connected = the state equals
PeerConnectionStateConnected), and the source simulcast track. -/
structure SimulcastClientTrack where
  sequenceNumber : Nat
  lastQuality : QualityLevel
  lastTimestamp : Nat
  connected : Bool
  remoteTrack : SimulcastTrack
deriving DecidableEq

/-- Timestamp rewrite of SimulcastClientTrack.push (clienttrack.go lines
138-145): for each layer the code computes
baseTS + ((rtp.Timestamp - layerBaseTS) - layerBaseTS) in uint32
arithmetic.  The switch statement has no QualityNone case, so for
QualityNone the timestamp is left unchanged. -/
def rebaseTimestamp (rt : SimulcastTrack) (q : QualityLevel) (ts : Nat) : Nat :=
  match q with
  | .qhigh => add32 rt.baseTS (sub32 (sub32 ts rt.remoteTrackHighBaseTS) rt.remoteTrackHighBaseTS)
  | .qmid => add32 rt.baseTS (sub32 (sub32 ts rt.remoteTrackMidBaseTS) rt.remoteTrackMidBaseTS)
  | .qlow => add32 rt.baseTS (sub32 (sub32 ts rt.remoteTrackLowBaseTS) rt.remoteTrackLowBaseTS)
  | .qnone => ts

/-- Tail of SimulcastClientTrack.push once trackQuality is determined: if
the packet layer matches, store lastTimestamp, rewrite the timestamp,
increment the uint32 sequence counter, emit its uint16 truncation, store
lastQuality and write the packet; otherwise drop. -/
def pushWrite (t : SimulcastClientTrack) (pkt : RTPPacket) (quality trackQuality : QualityLevel) :
    SimulcastClientTrack × Option RTPPacket :=
  if trackQuality = quality then
    let newTS := rebaseTimestamp t.remoteTrack quality pkt.timestamp
    let seq1 := (t.sequenceNumber + 1) % w32
    ({ t with lastTimestamp := pkt.timestamp,
              sequenceNumber := seq1,
              lastQuality := quality },
     some { timestamp := newTS, sequenceNumber := seq1 % 65536 })
  else (t, none)

/-- SimulcastClientTrack.push (clienttrack.go lines 102-161).  The keyframe
test IsKeyframe and the bitrate-controller answer GetQuality live outside
the given files, so their results enter as the parameters isKeyframe and
bcQuality.  The returned Option is the packet written to the local track
(none = the packet was dropped). -/
def push (t : SimulcastClientTrack) (pkt : RTPPacket) (quality : QualityLevel)
    (isKeyframe : Bool) (bcQuality : QualityLevel) :
    SimulcastClientTrack × Option RTPPacket :=
  if t.connected = false then (t, none)
  else if isKeyframe = false ∧ t.lastQuality = .qnone then (t, none)
  else if isKeyframe = true ∧ t.lastTimestamp ≠ pkt.timestamp then
    if bcQuality = .qnone then ({ t with lastQuality := .qnone }, none)
    else pushWrite t pkt quality bcQuality
  else pushWrite t pkt quality t.lastQuality

/-- Concrete simulcast client track used for the C1 evaluation: subscriber
connected, last chosen quality High, high-layer remote base 100,
subscriber-visible base 1000. -/
def c1Track : SimulcastClientTrack :=
  { sequenceNumber := 0
    lastQuality := .qhigh
    lastTimestamp := 0
    connected := true
    remoteTrack :=
      { baseTS := 1000
        remoteTrackHighBaseTS := 100
        remoteTrackMidBaseTS := 0
        remoteTrackLowBaseTS := 0 } }

/-- C1: the claim states that a forwarded packet whose layer matches the
chosen quality leaves push with timestamp baseTS + (ts - layerBaseTS), the
remote base subtracted exactly once.  The code subtracts the remote base
twice: with baseTS = 1000, high base = 100 and packet timestamp 150 the
written packet carries timestamp 950 = 1000 + ((150 - 100) - 100) mod 2^32,
while the single-subtraction value is 1050. -/
theorem C1_push_timestamp_double_subtract :
    (push c1Track { timestamp := 150, sequenceNumber := 7 } .qhigh false .qnone).2 =
      some { timestamp := 950, sequenceNumber := 1 } ∧
    add32 c1Track.remoteTrack.baseTS
      (sub32 150 c1Track.remoteTrack.remoteTrackHighBaseTS) = 1050 ∧
    (950 : Nat) ≠ 1050 := by decide

/-- Helper: whenever pushWrite actually writes a packet, the stored uint32
counter was incremented by one (mod 2^32) and the emitted sequence number is
its uint16 truncation. -/
theorem pushWrite_seq (t : SimulcastClientTrack) (pkt : RTPPacket) (q tq : QualityLevel)
    (t' : SimulcastClientTrack) (p : RTPPacket)
    (h : pushWrite t pkt q tq = (t', some p)) :
    t'.sequenceNumber = (t.sequenceNumber + 1) % w32 ∧
    p.sequenceNumber = t'.sequenceNumber % 65536 := by
  unfold pushWrite at h
  split at h
  · simp only [Prod.mk.injEq, Option.some.injEq] at h
    obtain ⟨h1, h2⟩ := h
    subst h1
    subst h2
    exact ⟨rfl, rfl⟩
  · simp at h

/-- Helper: whenever push writes a packet, the stored uint32 counter was
incremented by one (mod 2^32) and the emitted sequence number is its uint16
truncation. -/
theorem push_seq (t : SimulcastClientTrack) (pkt : RTPPacket) (q : QualityLevel)
    (k : Bool) (b : QualityLevel) (t' : SimulcastClientTrack) (p : RTPPacket)
    (h : push t pkt q k b = (t', some p)) :
    t'.sequenceNumber = (t.sequenceNumber + 1) % w32 ∧
    p.sequenceNumber = t'.sequenceNumber % 65536 := by
  unfold push at h
  split at h
  · simp at h
  · split at h
    · simp at h
    · split at h
      · split at h
        · simp at h
        · exact pushWrite_seq t pkt q b t' p h
      · exact pushWrite_seq t pkt q t.lastQuality t' p h

/-- Concrete track for the C2 witness: fresh counter, quality High chosen,
all base timestamps zero. -/
def c2t0 : SimulcastClientTrack :=
  { sequenceNumber := 0
    lastQuality := .qhigh
    lastTimestamp := 0
    connected := true
    remoteTrack := { baseTS := 0, remoteTrackHighBaseTS := 0, remoteTrackMidBaseTS := 0, remoteTrackLowBaseTS := 0 } }

/-- State of c2t0 after one written packet with timestamp 10. -/
def c2t1 : SimulcastClientTrack :=
  { sequenceNumber := 1
    lastQuality := .qhigh
    lastTimestamp := 10
    connected := true
    remoteTrack := { baseTS := 0, remoteTrackHighBaseTS := 0, remoteTrackMidBaseTS := 0, remoteTrackLowBaseTS := 0 } }

/-- State of c2t1 after one more written packet with timestamp 20. -/
def c2t2 : SimulcastClientTrack :=
  { sequenceNumber := 2
    lastQuality := .qhigh
    lastTimestamp := 20
    connected := true
    remoteTrack := { baseTS := 0, remoteTrackHighBaseTS := 0, remoteTrackMidBaseTS := 0, remoteTrackLowBaseTS := 0 } }

/-- C2 counterexample: the claim asserts the emitted RTP sequence numbers
grow by exactly 1 per written packet as integers.  The counter is a uint32
but the emitted field is its uint16 truncation, so at counter value 65534
two consecutive written packets carry 65535 and then 0, and 0 is not
65535 + 1. -/
theorem C2_counterexample :
    (push { sequenceNumber := 65534, lastQuality := .qhigh, lastTimestamp := 0,
            connected := true,
            remoteTrack := { baseTS := 0, remoteTrackHighBaseTS := 0,
                             remoteTrackMidBaseTS := 0, remoteTrackLowBaseTS := 0 } }
        { timestamp := 10, sequenceNumber := 0 } .qhigh false .qnone).2 =
      some { timestamp := 10, sequenceNumber := 65535 } ∧
    (push (push { sequenceNumber := 65534, lastQuality := .qhigh, lastTimestamp := 0,
                  connected := true,
                  remoteTrack := { baseTS := 0, remoteTrackHighBaseTS := 0,
                                   remoteTrackMidBaseTS := 0, remoteTrackLowBaseTS := 0 } }
              { timestamp := 10, sequenceNumber := 0 } .qhigh false .qnone).1
        { timestamp := 20, sequenceNumber := 0 } .qhigh false .qnone).2 =
      some { timestamp := 20, sequenceNumber := 0 } ∧
    ¬ ((0 : Nat) = 65535 + 1) := by decide

/-- C2 (amended): per written packet the emitted RTP sequence number grows
by exactly 1 modulo 2^16 (the field is a uint16), dense and independent of
the layers, keyframe flags and bitrate-controller answers of the two
pushes. -/
theorem C2_seq_plus_one_mod (t : SimulcastClientTrack) (pkt1 pkt2 : RTPPacket)
    (q1 q2 b1 b2 : QualityLevel) (k1 k2 : Bool)
    (t1 t2 : SimulcastClientTrack) (p1 p2 : RTPPacket)
    (h1 : push t pkt1 q1 k1 b1 = (t1, some p1))
    (h2 : push t1 pkt2 q2 k2 b2 = (t2, some p2)) :
    p2.sequenceNumber = (p1.sequenceNumber + 1) % 65536 := by
  obtain ⟨e1, f1⟩ := push_seq t pkt1 q1 k1 b1 t1 p1 h1
  obtain ⟨e2, f2⟩ := push_seq t1 pkt2 q2 k2 b2 t2 p2 h2
  rw [f1, f2, e2, e1]
  simp only [w32]
  omega

/-- C2 witness: the amended theorem applied to two concrete consecutive
writes, emitting sequence numbers 1 and then 2 = (1 + 1) % 65536. -/
theorem C2_seq_plus_one_mod_witness :
    (2 : Nat) = (1 + 1) % 65536 :=
  C2_seq_plus_one_mod c2t0 { timestamp := 10, sequenceNumber := 0 }
    { timestamp := 20, sequenceNumber := 0 } .qhigh .qhigh .qnone .qnone false false
    c2t1 c2t2 { timestamp := 10, sequenceNumber := 1 } { timestamp := 20, sequenceNumber := 2 }
    (by decide) (by decide)

/-- Per-category bitrate budgets of the SFU (Go uint32 fields Audio, Video,
VideoHigh, VideoMid of bitratesConfig). -/
structure BitratesConfig where
  audio : Nat
  video : Nat
  videoHigh : Nat
  videoMid : Nat
deriving DecidableEq

/-- Kind of a published track as reported by Kind(): audio or video. -/
inductive TrackKind where
  | audio
  | video
deriving DecidableEq

/-- Track data inspected by the counting loop of getDistributedQuality. -/
structure PubTrack where
  kind : TrackKind
  isSimulcast : Bool
deriving DecidableEq

/-- Client entry of the SFU registry as seen by getDistributedQuality: its
ID and its current tracks. -/
structure RoomClient where
  id : String
  tracks : List PubTrack
deriving DecidableEq

/-- Counting loop of SimulcastClientTrack.getDistributedQuality
(clienttrack.go lines 246-266): over every registry client other than the
subscribing client, count audio tracks, non-simulcast video tracks and
simulcast video tracks.  Result: (audio, video, simulcast) counts. -/
def trackCounts (selfId : String) (clients : List RoomClient) : Nat × Nat × Nat :=
  clients.foldl
    (fun acc c =>
      if selfId ≠ c.id then
        c.tracks.foldl
          (fun acc2 tr =>
            match tr.kind with
            | .audio => (acc2.1 + 1, acc2.2.1, acc2.2.2)
            | .video =>
              if tr.isSimulcast then (acc2.1, acc2.2.1, acc2.2.2 + 1)
              else (acc2.1, acc2.2.1 + 1, acc2.2.2))
          acc
      else acc)
    (0, 0, 0)

/-- Threshold mapping at the end of getDistributedQuality (clienttrack.go
lines 272-278): High when the share is strictly above VideoHigh, Mid when
it is strictly below VideoHigh and strictly above VideoMid, Low
otherwise. -/
def qualityFromShare (cfg : BitratesConfig) (d : Nat) : QualityLevel :=
  if d > cfg.videoHigh then .qhigh
  else if d < cfg.videoHigh ∧ d > cfg.videoMid then .qmid
  else .qlow

/-- SimulcastClientTrack.getDistributedQuality (clienttrack.go lines
245-279): subtract the audio and plain-video budgets from the available
bandwidth (uint32 wrapping) and divide the remainder by the simulcast
count.  The Go code divides by the raw count; a zero count is a runtime
division-by-zero panic, modelled as none. -/
def getDistributedQuality (cfg : BitratesConfig) (selfId : String)
    (clients : List RoomClient) (availableBandwidth : Nat) : Option QualityLevel :=
  let counts := trackCounts selfId clients
  let leftBandwidth :=
    sub32 (sub32 availableBandwidth (mul32 counts.1 cfg.audio)) (mul32 counts.2.1 cfg.video)
  if counts.2.2 = 0 then none
  else some (qualityFromShare cfg (leftBandwidth / counts.2.2))

/-- C4: the claim states the per-simulcast share divides by max(S, 1) and
that the computation returns a quality level even when S = 0.  In the code
the divisor is the raw simulcast count, so in a room where no other client
holds a simulcast track the division is a Go division by zero (a runtime
panic, modelled as none) instead of a quality level. -/
theorem C4_divide_by_zero :
    getDistributedQuality { audio := 65000, video := 500000, videoHigh := 500, videoMid := 200 }
      "me" [{ id := "me", tracks := [{ kind := .video, isSimulcast := true }] }] 1000000 =
      none := by decide

/-- C5 counterexample: the claim states that a share exactly equal to the
VideoHigh threshold maps to Mid.  With thresholds VideoHigh = 500 and
VideoMid = 200 and one other simulcast track, an available bandwidth of 500
gives share 500, and the code returns Low, not Mid. -/
theorem C5_counterexample :
    getDistributedQuality { audio := 650, video := 1200, videoHigh := 500, videoMid := 200 }
      "me" [{ id := "me", tracks := [] },
            { id := "other", tracks := [{ kind := .video, isSimulcast := true }] }] 500 =
      some .qlow ∧
    some QualityLevel.qlow ≠ some QualityLevel.qmid := by decide

/-- C5 (amended): for a configuration with VideoMid at most VideoHigh the
mapping returns High when the share is strictly above VideoHigh, Mid when
it is strictly between VideoMid and VideoHigh, and Low when the share is at
most VideoMid or exactly equal to VideoHigh; in particular a share equal to
VideoHigh maps to Low, not Mid. -/
theorem C5_quality_mapping (cfg : BitratesConfig) (d : Nat)
    (h : cfg.videoMid ≤ cfg.videoHigh) :
    (cfg.videoHigh < d → qualityFromShare cfg d = .qhigh) ∧
    (cfg.videoMid < d → d < cfg.videoHigh → qualityFromShare cfg d = .qmid) ∧
    ((d ≤ cfg.videoMid ∨ d = cfg.videoHigh) → qualityFromShare cfg d = .qlow) := by
  unfold qualityFromShare
  refine ⟨fun h1 => ?_, fun h1 h2 => ?_, fun h1 => ?_⟩
  · simp [h1]
  · rw [if_neg (by omega), if_pos ⟨h2, h1⟩]
  · rw [if_neg (by omega), if_neg (by omega)]

/-- C5 witness: the amended mapping evaluated at the concrete configuration
VideoHigh = 500, VideoMid = 200 on shares 600, 300 and 500. -/
theorem C5_quality_mapping_witness :
    qualityFromShare { audio := 0, video := 0, videoHigh := 500, videoMid := 200 } 600 = .qhigh ∧
    qualityFromShare { audio := 0, video := 0, videoHigh := 500, videoMid := 200 } 300 = .qmid ∧
    qualityFromShare { audio := 0, video := 0, videoHigh := 500, videoMid := 200 } 500 = .qlow :=
  ⟨(C5_quality_mapping _ 600 (by decide)).1 (by decide),
   (C5_quality_mapping _ 300 (by decide)).2.1 (by decide) (by decide),
   (C5_quality_mapping _ 500 (by decide)).2.2 (Or.inr rfl)⟩

/-- Key under which a published track is stored: streamID-trackID
(fmt.Sprintf and the string concatenations in client.go agree). -/
def trackKey (streamID trackID : String) : String := streamID ++ "-" ++ trackID

/-- Client state touched by removePublishedTrack: whether the peer
connection is in PeerConnectionStateClosed, the publishedTracks map
(modelled by its list of keys) and the senders of the peer connection
(modelled by the (streamID, trackID) of each sender track). -/
structure SFUClient where
  id : String
  closed : Bool
  publishedTracks : List String
  senders : List (String × String)
deriving DecidableEq

/-- Client.removePublishedTrack (client.go): delete the key from the
publishedTracks map recording whether it was present; if the peer
connection is Closed return false at once; otherwise remove every sender
whose track matches and return whether the map entry existed. -/
def removePublishedTrack (c : SFUClient) (streamID trackID : String) : SFUClient × Bool :=
  let key := trackKey streamID trackID
  let removed := c.publishedTracks.contains key
  let c1 := { c with publishedTracks := c.publishedTracks.erase key }
  if c.closed then (c1, false)
  else
    ({ c1 with senders := c1.senders.filter fun s => ¬(s.2 = trackID ∧ s.1 = streamID) },
     removed)

/-- SFU.removeTrack (registry file): iterate over all clients calling
removePublishedTrack, assigning (not OR-ing) each result to the returned
flag, so the function returns the result of the last client visited. -/
def removeTrack (clients : List SFUClient) (streamID trackID : String) :
    List SFUClient × Bool :=
  clients.foldl
    (fun acc c =>
      let r := removePublishedTrack c streamID trackID
      (acc.1 ++ [r.1], r.2))
    ([], false)

/-- C6: the claim states removeTrack returns the OR over all clients of
whether each had the track.  With two open clients where only the first
holds the track, the track is removed from the first client yet the
function returns the last iteration result, false. -/
theorem C6_removeTrack_last_client :
    (removeTrack [{ id := "a", closed := false, publishedTracks := [trackKey "s" "t"],
                    senders := [("s", "t")] },
                  { id := "b", closed := false, publishedTracks := [], senders := [] }]
        "s" "t").2 = false ∧
    (removeTrack [{ id := "a", closed := false, publishedTracks := [trackKey "s" "t"],
                    senders := [("s", "t")] },
                  { id := "b", closed := false, publishedTracks := [], senders := [] }]
        "s" "t").1 =
      [{ id := "a", closed := false, publishedTracks := [], senders := [] },
       { id := "b", closed := false, publishedTracks := [], senders := [] }] := by decide

/-- C7 counterexample: the claim states removePublishedTrack returns true
if and only if anything was removed, for every peer-connection state
including Closed.  On a Closed client holding the track, the map entry is
removed (the published set changes) yet the function returns false, and the
matching sender is left in place. -/
theorem C7_counterexample :
    (removePublishedTrack { id := "c", closed := true, publishedTracks := [trackKey "s" "t"],
                            senders := [("s", "t")] } "s" "t").2 = false ∧
    (removePublishedTrack { id := "c", closed := true, publishedTracks := [trackKey "s" "t"],
                            senders := [("s", "t")] } "s" "t").1.publishedTracks = [] ∧
    ([trackKey "s" "t"] : List String) ≠ [] ∧
    (removePublishedTrack { id := "c", closed := true, publishedTracks := [trackKey "s" "t"],
                            senders := [("s", "t")] } "s" "t").1.senders = [("s", "t")] := by decide

/-- C7 (amended): removePublishedTrack always deletes the map entry; it
returns true exactly when the peer connection is not Closed and the entry
was present; on a Closed peer connection the senders are left untouched;
and on a peer connection that is not Closed the surviving senders are
exactly the previous ones whose track does not match (streamID, trackID),
so every matching sender is removed and no other sender is touched. -/
theorem C7_removePublishedTrack_spec (c : SFUClient) (streamID trackID : String) :
    ((removePublishedTrack c streamID trackID).2 = true ↔
      (c.closed = false ∧ c.publishedTracks.contains (trackKey streamID trackID) = true)) ∧
    (removePublishedTrack c streamID trackID).1.publishedTracks =
      c.publishedTracks.erase (trackKey streamID trackID) ∧
    (c.closed = true → (removePublishedTrack c streamID trackID).1.senders = c.senders) ∧
    (c.closed = false →
      ∀ s : String × String,
        s ∈ (removePublishedTrack c streamID trackID).1.senders ↔
          (s ∈ c.senders ∧ ¬(s.2 = trackID ∧ s.1 = streamID))) := by
  unfold removePublishedTrack
  cases hc : c.closed <;> simp [hc, List.mem_filter]
  intro a b _
  tauto

/-- C7 witness: the amended statement applied to a concrete open client
holding the track, which yields the return value true. -/
theorem C7_removePublishedTrack_spec_witness :
    (removePublishedTrack { id := "w", closed := false, publishedTracks := [trackKey "s" "t"],
                            senders := [] } "s" "t").2 = true :=
  (C7_removePublishedTrack_spec
      { id := "w", closed := false, publishedTracks := [trackKey "s" "t"], senders := [] }
      "s" "t").1.mpr (by decide)

/-- Observable signaling events: the goroutine started by
allowRemoteRenegotiationQueuOp invoking the OnAllowedRemoteRenegotiation
callback. -/
inductive SigEvent where
  | allowedRemoteRenegotiation
deriving DecidableEq

/-- Signaling state of a Client (client.go): the negotiation flags, the
conditions read by the renegotiation loop (client state, signaling state,
connection state, whether an OnAllowedRemoteRenegotiation callback is
registered), whether the renegotiation loop is currently suspended in the
blocking OnRenegotiation call, and the log of emitted callback events. -/
structure NegState where
  isInRenegotiation : Bool
  isInRemoteNegotiation : Bool
  pendingRemoteRenegotiation : Bool
  negotiationNeeded : Bool
  ended : Bool
  stable : Bool
  connected : Bool
  hasAllowedRemoteCallback : Bool
  awaitingAnswer : Bool
  events : List SigEvent
deriving DecidableEq

/-- Client.IsAllowNegotiation (client.go lines 383-392): while a local
renegotiation is running, record the pending request and refuse; otherwise
mark the remote negotiation as running and grant. -/
def IsAllowNegotiation (s : NegState) : NegState × Bool :=
  if s.isInRenegotiation then ({ s with pendingRemoteRenegotiation := true }, false)
  else ({ s with isInRemoteNegotiation := true }, true)

/-- Client.negotiateQueuOp (client.go lines 413-459): sets
isInRemoteNegotiation at entry and clears it at the end; ok bundles the
success of SetRemoteDescription, CreateAnswer and SetLocalDescription — on
any of those errors the function returns early and the flag stays set. -/
def negotiateQueuOp (s : NegState) (ok : Bool) : NegState :=
  let s1 := { s with isInRemoteNegotiation := true }
  if ok then { s1 with isInRemoteNegotiation := false } else s1

/-- First half of Client.renegotiateQueuOp (client.go lines 469-508), up to
the blocking OnRenegotiation call: set NegotiationNeeded, return if a
remote negotiation or another local renegotiation is running, otherwise set
isInRenegotiation, clear NegotiationNeeded and, when the client is not
Ended, signaling is Stable and the connection is Connected, create and
install the local offer; offerOk bundles CreateOffer and
SetLocalDescription — on error the function returns early with
isInRenegotiation still set.  When the loop body is skipped the loop
condition is already false and the flag is cleared. -/
def renegotiateQueuOpBegin (s : NegState) (offerOk : Bool) : NegState :=
  let s1 := { s with negotiationNeeded := true }
  if s1.isInRemoteNegotiation then s1
  else if s1.isInRenegotiation then s1
  else
    let s2 := { s1 with isInRenegotiation := true, negotiationNeeded := false }
    if s2.ended = false ∧ s2.stable = true ∧ s2.connected = true then
      if offerOk then { s2 with awaitingAnswer := true }
      else s2
    else { s2 with isInRenegotiation := false }

/-- Second half of Client.renegotiateQueuOp (client.go lines 508-528), from
the return of the blocking OnRenegotiation call: answerOk bundles that the
callback succeeded, that the SDP type is Answer and that
SetRemoteDescription succeeded — on failure the function returns early with
isInRenegotiation still set; on success the loop condition
NegotiationNeeded is false again, the loop exits and the flag is cleared.
Nothing here reads pendingRemoteRenegotiation or emits any event. -/
def renegotiateQueuOpComplete (s : NegState) (answerOk : Bool) : NegState :=
  if s.awaitingAnswer = false then s
  else
    let s1 := { s with awaitingAnswer := false }
    if answerOk then { s1 with isInRenegotiation := false } else s1

/-- Client.allowRemoteRenegotiationQueuOp (client.go lines 537-542): when a
callback is registered, set isInRemoteNegotiation and invoke the callback
in a goroutine (recorded as an event). -/
def allowRemoteRenegotiationQueuOp (s : NegState) : NegState :=
  if s.hasAllowedRemoteCallback then
    { s with isInRemoteNegotiation := true,
             events := s.events ++ [SigEvent.allowedRemoteRenegotiation] }
  else s

/-- Signaling operations of a run: IsAllowNegotiation is called directly by
the signaling layer (it may land while the renegotiation loop is suspended
in OnRenegotiation); the queued operations run one at a time on the queue
consumer, so a queued operation never starts between a begin and its
matching complete — in a run they are therefore no-ops while an answer is
awaited. -/
inductive SigOp where
  | isAllow
  | negotiate (ok : Bool)
  | renegotiateBegin (offerOk : Bool)
  | renegotiateComplete (answerOk : Bool)
  | allowRemote
deriving DecidableEq

/-- Single step of the serialized signaling semantics. -/
def sigStep (s : NegState) (op : SigOp) : NegState :=
  match op with
  | .isAllow => (IsAllowNegotiation s).1
  | .negotiate ok => if s.awaitingAnswer then s else negotiateQueuOp s ok
  | .renegotiateBegin ok => if s.awaitingAnswer then s else renegotiateQueuOpBegin s ok
  | .renegotiateComplete ok => renegotiateQueuOpComplete s ok
  | .allowRemote => if s.awaitingAnswer then s else allowRemoteRenegotiationQueuOp s

/-- Run of a list of signaling operations. -/
def sigRun (s : NegState) (ops : List SigOp) : NegState := ops.foldl sigStep s

/-- Initial signaling state of a fresh Client (NewClient sets no flag); the
ambient peer-connection conditions are parameters. -/
def initNegState (stable connected hasCallback : Bool) : NegState :=
  { isInRenegotiation := false
    isInRemoteNegotiation := false
    pendingRemoteRenegotiation := false
    negotiationNeeded := false
    ended := false
    stable := stable
    connected := connected
    hasAllowedRemoteCallback := hasCallback
    awaitingAnswer := false
    events := [] }

/-- C3: the claim states isInRenegotiation and isInRemoteNegotiation are
never simultaneously true.  Run from a fresh connected client: the
renegotiation loop starts, the signaling layer answers the offer with a
non-Answer SDP, so the loop aborts through the early return that skips
clearing isInRenegotiation; a queued allow-remote-renegotiation operation
then sets isInRemoteNegotiation, and both flags are true. -/
theorem C3_both_flags_true :
    (sigRun (initNegState true true true)
        [.renegotiateBegin true, .renegotiateComplete false, .allowRemote]).isInRenegotiation =
      true ∧
    (sigRun (initNegState true true true)
        [.renegotiateBegin true, .renegotiateComplete false, .allowRemote]).isInRemoteNegotiation =
      true := by decide

/-- C8 counterexample: the claim states that after IsAllowNegotiation is
refused during a local renegotiation, completing the loop invokes
OnAllowedRemoteRenegotiation.  In the run where the loop starts, the
refusal happens while the loop awaits the answer, and the loop then
completes successfully, the refusal did return false, yet no callback event
is ever emitted and pendingRemoteRenegotiation is still set: nothing in the
code ever reads that flag. -/
theorem C8_counterexample :
    (IsAllowNegotiation (sigRun (initNegState true true true) [.renegotiateBegin true])).2 =
      false ∧
    (sigRun (initNegState true true true)
        [.renegotiateBegin true, .isAllow, .renegotiateComplete true]).events = [] ∧
    (sigRun (initNegState true true true)
        [.renegotiateBegin true, .isAllow, .renegotiateComplete true]).pendingRemoteRenegotiation =
      true := by decide

/-- C8 (amended): while a local renegotiation is in progress,
IsAllowNegotiation returns false and sets pendingRemoteRenegotiation, but
the completion of the renegotiation loop emits no
OnAllowedRemoteRenegotiation callback and leaves pendingRemoteRenegotiation
set — the refused remote side has to retry on its own. -/
theorem C8_refusal_no_callback (s : NegState) (answerOk : Bool)
    (h : s.isInRenegotiation = true) :
    (IsAllowNegotiation s).2 = false ∧
    (IsAllowNegotiation s).1.pendingRemoteRenegotiation = true ∧
    (renegotiateQueuOpComplete (IsAllowNegotiation s).1 answerOk).events = s.events ∧
    (renegotiateQueuOpComplete (IsAllowNegotiation s).1 answerOk).pendingRemoteRenegotiation =
      true := by
  unfold IsAllowNegotiation renegotiateQueuOpComplete
  rw [if_pos h]
  refine ⟨rfl, rfl, ?_, ?_⟩ <;> split <;> try rfl
  all_goals split <;> rfl

/-- C8 witness: the amended statement applied to the concrete suspended
state reached by starting the renegotiation loop on a fresh connected
client and a successfully completing loop. -/
theorem C8_refusal_no_callback_witness :
    (IsAllowNegotiation (sigRun (initNegState true true true) [.renegotiateBegin true])).2 =
      false ∧
    (IsAllowNegotiation
        (sigRun (initNegState true true true) [.renegotiateBegin true])).1.pendingRemoteRenegotiation =
      true ∧
    (renegotiateQueuOpComplete
        (IsAllowNegotiation
          (sigRun (initNegState true true true) [.renegotiateBegin true])).1
        true).events =
      (sigRun (initNegState true true true) [.renegotiateBegin true]).events ∧
    (renegotiateQueuOpComplete
        (IsAllowNegotiation
          (sigRun (initNegState true true true) [.renegotiateBegin true])).1
        true).pendingRemoteRenegotiation = true :=
  C8_refusal_no_callback (sigRun (initNegState true true true) [.renegotiateBegin true])
    true (by decide)

/-- Metadata.OnChanged (room_stats.go): append the callback to the
onChangedCallbacks slice and hand back the index it was stored at as the
subscription handle.  Callbacks are modelled by tags of an arbitrary
type. -/
def OnChanged {α : Type} (callbacks : List α) (f : α) : List α × Nat :=
  (callbacks ++ [f], callbacks.length)

/-- OnMetaChangedSubscription.Unsubscribe (room_stats.go lines 90-95):
splice out the element at the stored index idx, whatever is there now —
append(callbacks[:idx], callbacks[idx+1:]...).  For idx below the current
length this is exactly take idx ++ drop (idx + 1). -/
def Unsubscribe {α : Type} (callbacks : List α) (idx : Nat) : List α :=
  callbacks.take idx ++ callbacks.drop (idx + 1)

/-- C9: the claim states that with two registered callbacks, calling
Unsubscribe twice on the first subscription handle removes one callback and
is then a no-op, leaving the other callback intact.  Subscribing callbacks
10 and 20 yields handles 0 and 1; the first Unsubscribe on handle 0 leaves
[20], and the second removes the survivor 20 as well, leaving [] instead of
[20]. -/
theorem C9_unsubscribe_twice_corrupts :
    OnChanged ([] : List Nat) 10 = ([10], 0) ∧
    OnChanged [10] 20 = ([10, 20], 1) ∧
    Unsubscribe [10, 20] 0 = [20] ∧
    Unsubscribe (Unsubscribe [10, 20] 0) 0 = [] ∧
    ([] : List Nat) ≠ [20] := by decide

/-- State of the peer connection as reported by ConnectionState(). -/
inductive PCState where
  | pcNew
  | connecting
  | connected
  | disconnected
  | failed
  | closed
deriving DecidableEq

/-- Track identity (StreamID, ID) as used by the registry. -/
structure MTrack where
  streamID : String
  trackID : String
deriving DecidableEq

/-- Client state read by GetCurrentTracks and SyncTrack: the ID, the peer
connection state, the publishedTracks map (subscriber side) and the tracks
map (publisher side). -/
structure SyncClient where
  id : String
  connState : PCState
  publishedTracks : List MTrack
  tracks : List MTrack
deriving DecidableEq

/-- Client.GetCurrentTracks (room_stats.go lines 652-668): when the peer
connection is Closed or Failed return the empty map, otherwise the map
keyed by streamID-trackID over publishedTracks (modelled by its key
list). -/
def GetCurrentTracks (c : SyncClient) : List String :=
  if c.connState = .closed ∨ c.connState = .failed then []
  else c.publishedTracks.map fun t => trackKey t.streamID t.trackID

/-- SFU.SyncTrack (registry file lines 411-432): for every registry client
and each of its publisher-side tracks belonging to a different client, if
the key is not among the currentTracks of the connecting client, add the
track and record that a renegotiation is needed.  The returned flag is
true exactly when some such track was missing. -/
def SyncTrack (clients : List SyncClient) (c : SyncClient) : Bool :=
  let currentTracks := GetCurrentTracks c
  clients.any fun peer =>
    peer.tracks.any fun tr =>
      decide (c.id ≠ peer.id) && !(currentTracks.contains (trackKey tr.streamID tr.trackID))

/-- Helper: a List.any with a constant predicate is that constant and-ed
with the list being non-empty. -/
theorem any_const_eq {α : Type} (l : List α) (b : Bool) :
    l.any (fun _ => b) = (b && !l.isEmpty) := by
  induction l with
  | nil => simp
  | cons x xs ih => cases b <;> simp_all

/-- C10: on a client whose peer connection is Closed or Failed,
GetCurrentTracks is the empty map whatever the published tracks are, and
consequently SyncTrack sees no current track at all: its result is exactly
whether some other client publishes any track, with no filtering against
the current tracks of the client. -/
theorem C10_closed_failed_no_current_tracks (c : SyncClient) (clients : List SyncClient)
    (h : c.connState = .closed ∨ c.connState = .failed) :
    GetCurrentTracks c = [] ∧
    SyncTrack clients c =
      clients.any (fun peer => decide (c.id ≠ peer.id) && !peer.tracks.isEmpty) := by
  have hempty : GetCurrentTracks c = [] := by
    unfold GetCurrentTracks
    rcases h with h | h <;> simp [h]
  refine ⟨hempty, ?_⟩
  unfold SyncTrack
  rw [hempty]
  simp only [List.contains, List.elem_nil, Bool.not_false, Bool.and_true]
  congr 1
  funext peer
  exact any_const_eq peer.tracks _

/-- Concrete closed client with a non-empty published set, for the C10
witness. -/
def c10c : SyncClient :=
  { id := "x"
    connState := .closed
    publishedTracks := [{ streamID := "s", trackID := "t" }]
    tracks := [] }

/-- Concrete peer publishing one track, for the C10 witness. -/
def c10peer : SyncClient :=
  { id := "y"
    connState := .connected
    publishedTracks := []
    tracks := [{ streamID := "s2", trackID := "t2" }] }

/-- C10 witness: the theorem applied to the concrete closed client with a
non-empty published set and a registry holding one publishing peer. -/
theorem C10_closed_failed_no_current_tracks_witness :
    GetCurrentTracks c10c = [] ∧
    SyncTrack [c10c, c10peer] c10c =
      [c10c, c10peer].any (fun peer => decide (c10c.id ≠ peer.id) && !peer.tracks.isEmpty) :=
  C10_closed_failed_no_current_tracks c10c [c10c, c10peer] (Or.inl rfl)

end SFU
